import Mathlib

/-!
Verification development for the MCP (Model Context Protocol) server and the
Wazuh API client of this repository.  The Python sources are shallowly
embedded: parsed JSON values become an inductive `Json`; the dispatcher
`McpServer.handle_message`, the tool-call handler `McpServer._handle_tools_call`,
the stdio transport loop `StdioTransport.start`, the schema derivation of the
`tool` decorator, the authenticated request logic `WazuhClientBase._make_request`
and `ToolUtils.format_agent_id` become Lean functions over that model.
External effects (the network, `json.loads` of a line) are passed in as
explicit oracle arguments.
-/

namespace Mcp

/-- A parsed JSON value (the result of `json.loads`).  Python `None`/JSON
`null` are identified, numbers are modelled as integers (no claim involves
floats), objects are association lists (parsed Python dicts have distinct
keys). -/
inductive Json where
  | null
  | bool (b : Bool)
  | num (n : Int)
  | str (s : String)
  | arr (elems : List Json)
  | obj (fields : List (String × Json))

/-- First binding of a key in an association list: the lookup of a parsed
Python dict (whose keys are distinct). -/
def lookupField {α : Type} : List (String × α) → String → Option α
  | [], _ => none
  | (k, v) :: rest, key => if k == key then some v else lookupField rest key

/-- `d.get(key)`: `None` (here `Json.null`) when the key is absent. -/
def dictGet (fields : List (String × Json)) (key : String) : Json :=
  match lookupField fields key with
  | some v => v
  | none => Json.null

/-- `d.get(key, default)`. -/
def dictGetD (fields : List (String × Json)) (key : String) (dflt : Json) : Json :=
  match lookupField fields key with
  | some v => v
  | none => dflt

/-- Python truthiness of a parsed JSON value (`if not x`). -/
def Json.truthy : Json → Bool
  | Json.null => false
  | Json.bool b => b
  | Json.num n => !(n == 0)
  | Json.str s => !(s == "")
  | Json.arr xs => !xs.isEmpty
  | Json.obj fs => !fs.isEmpty

/-- Python equality test `x == "lit"` for a parsed JSON value `x`: only a
string with the same characters compares equal to a string literal. -/
def pyEqStr (j : Json) (s : String) : Bool :=
  match j with
  | Json.str t => t == s
  | _ => false

/-- The code points `str.isspace()` holds of — the exact set that
`str.strip()` with no argument removes (CPython 3.11 / Unicode 14.0):
horizontal tab through carriage return, the four separator controls
28–31, space, next line 133, no-break space 160, Ogham space 5760, the
Unicode space block 8192–8202, line and paragraph separators 8232–8233,
narrow no-break space 8239, medium mathematical space 8287 and ideographic
space 12288. -/
def pySpaceCodes : List Nat :=
  [9, 10, 11, 12, 13, 28, 29, 30, 31, 32, 133, 160, 5760, 8192, 8193, 8194,
   8195, 8196, 8197, 8198, 8199, 8200, 8201, 8202, 8232, 8233, 8239, 8287, 12288]

/-- A character `str.strip()` removes. -/
def isPySpace (c : Char) : Bool := pySpaceCodes.contains c.toNat

/-- `str.strip()`: drop leading and trailing whitespace. -/
def pyStrip (s : String) : String :=
  String.mk (((s.data.dropWhile isPySpace).reverse.dropWhile isPySpace).reverse)

/-- Whether the parsed value is a dict (`isinstance(request, dict)`). -/
def jsonIsObj : Json → Bool
  | Json.obj _ => true
  | _ => false

/-- Python type name of a parsed JSON value, as it appears in an
`AttributeError` message. -/
def pyTypeName : Json → String
  | Json.null => "NoneType"
  | Json.bool _ => "bool"
  | Json.num _ => "int"
  | Json.str _ => "str"
  | Json.arr _ => "list"
  | Json.obj _ => "dict"

mutual

/-- Python `repr` of a parsed JSON value (string escaping inside reprs is not
modelled; no claim depends on it). -/
def pyRepr : Json → String
  | Json.null => "None"
  | Json.bool true => "True"
  | Json.bool false => "False"
  | Json.num n => toString n
  | Json.str s => "\x27" ++ s ++ "\x27"
  | Json.arr xs => "[" ++ pyReprItems xs ++ "]"
  | Json.obj fs => "\x7b" ++ pyReprFields fs ++ "\x7d"

/-- Comma-separated reprs of list items. -/
def pyReprItems : List Json → String
  | [] => ""
  | [x] => pyRepr x
  | x :: y :: rest => pyRepr x ++ ", " ++ pyReprItems (y :: rest)

/-- Comma-separated `key: value` reprs of dict entries. -/
def pyReprFields : List (String × Json) → String
  | [] => ""
  | [(k, v)] => "\x27" ++ k ++ "\x27: " ++ pyRepr v
  | (k, v) :: kv :: rest => "\x27" ++ k ++ "\x27: " ++ pyRepr v ++ ", " ++ pyReprFields (kv :: rest)

end

/-- Python `str` of a parsed JSON value (as interpolated by an f-string). -/
def pyStr : Json → String
  | Json.str s => s
  | j => pyRepr j

-- The fixed JSON-RPC error codes of `mcp_protocol.ErrorCodes`.
namespace ErrorCodes

def PARSE_ERROR : Int := -32700

def INVALID_REQUEST : Int := -32600

def METHOD_NOT_FOUND : Int := -32601

def INVALID_PARAMS : Int := -32602

def INTERNAL_ERROR : Int := -32603

end ErrorCodes

/-- A `Content` item of a tool result (`mcp_protocol.Content`). -/
structure Content where
  type : String
  text : String

/-- `dataclasses.asdict` of a `Content` item. -/
def contentJson (c : Content) : Json :=
  Json.obj [("type", Json.str c.type), ("text", Json.str c.text)]

/-- A single text content item, as built inline by `_handle_tools_call`. -/
def textContent (s : String) : Json :=
  Json.obj [("type", Json.str "text"), ("text", Json.str s)]

/-- Outcome of awaiting a tool method on given arguments: a `CallToolResult`,
some other value (carried as its `str` form), or a raised exception (carried
as its `str(e)` message). -/
inductive ToolOutcome where
  | result (content : List Content) (is_error : Bool)
  | other (s : String)
  | raises (msg : String)

/-- One registered tool (`handler._tools[name]`): description, input schema
and the bound method (which the registry may lack, `tool_info.get("method")`). -/
structure ToolInfo where
  description : String
  input_schema : Json
  method : Option (Json → ToolOutcome)

/-- The MCP server: its tool registry and the server metadata used by
`_handle_initialize`, plus the `initialized` flag. -/
structure McpServer where
  tools : List (String × ToolInfo)
  serverName : String
  serverVersion : String
  instructions : Option String
  initialized : Bool

/-- Exceptions of the dispatcher that `handle_message`'s blanket
`except Exception` can catch: a `JsonRpcError` raised by
`_handle_tools_call`, or the `AttributeError` from calling `.get` on a
non-dict `params`. -/
inductive PyExn where
  | jsonRpcError (code : Int) (message : String)
  | attributeError (message : String)

/-- `str(e)` of such an exception (`JsonRpcError.__init__` passes
`f"JSON-RPC Error {code}: {message}"` to `Exception`). -/
def PyExn.str : PyExn → String
  | PyExn.jsonRpcError c m => "JSON-RPC Error " ++ toString c ++ ": " ++ m
  | PyExn.attributeError m => m

/-- `McpServer._create_success_response` (the `json.dumps` serialization is
left external; the envelope object is returned). -/
def create_success_response (request_id : Json) (result : Json) : Json :=
  Json.obj [("jsonrpc", Json.str "2.0"), ("id", request_id), ("result", result)]

/-- `McpServer._create_error_response` (every call site passes `data=None`,
so the `data` member is always omitted). -/
def create_error_response (request_id : Json) (code : Int) (message : String) : Json :=
  Json.obj [("jsonrpc", Json.str "2.0"), ("id", request_id),
    ("error", Json.obj [("code", Json.num code), ("message", Json.str message)])]

/-- `McpServer._handle_initialize`. -/
def initialize_result (server : McpServer) : Json :=
  Json.obj [("protocolVersion", Json.str "2024-11-05"),
    ("capabilities", Json.obj [("tools", Json.obj []), ("prompts", Json.obj []),
      ("resources", Json.obj [])]),
    ("serverInfo", Json.obj [("name", Json.str server.serverName),
      ("version", Json.str server.serverVersion)]),
    ("instructions", match server.instructions with
      | some s => Json.str s
      | none => Json.null)]

/-- `McpServer._handle_tools_list`. -/
def tools_list_result (server : McpServer) : Json :=
  Json.obj [("tools", Json.arr (server.tools.map (fun kv =>
    Json.obj [("name", Json.str kv.1), ("description", Json.str kv.2.description),
      ("inputSchema", kv.2.input_schema)])))]

/-- `McpServer._handle_tools_call`: returns the result dict or the exception
that escapes it.  The awaited call `method(self.handler, **arguments)` is
abstracted as applying the registered method to the `arguments` value; every
exception the call raises (including `TypeError` from unpacking non-dict
arguments) is the `ToolOutcome.raises` case. -/
def handle_tools_call (server : McpServer) (params : Json) : Except PyExn Json :=
  match params with
  | Json.obj pfields =>
    let tool_name := dictGet pfields "name"
    if tool_name.truthy = false then
      Except.error (PyExn.jsonRpcError ErrorCodes.INVALID_PARAMS "Missing tool name")
    else
      let arguments := dictGetD pfields "arguments" (Json.obj [])
      match tool_name with
      | Json.str s =>
        match lookupField server.tools s with
        | some info =>
          match info.method with
          | some m =>
            match m arguments with
            | ToolOutcome.result content isErr =>
              Except.ok (Json.obj [("content", Json.arr (content.map contentJson)),
                ("isError", Json.bool isErr)])
            | ToolOutcome.other sval =>
              Except.ok (Json.obj [("content", Json.arr [textContent sval]),
                ("isError", Json.bool false)])
            | ToolOutcome.raises msg =>
              Except.ok (Json.obj [("content", Json.arr [textContent ("Error calling tool: " ++ msg)]),
                ("isError", Json.bool true)])
          | none =>
            Except.error (PyExn.jsonRpcError ErrorCodes.METHOD_NOT_FOUND ("Tool not found: " ++ s))
        | none =>
          Except.error (PyExn.jsonRpcError ErrorCodes.METHOD_NOT_FOUND ("Tool not found: " ++ s))
      | other =>
        Except.error (PyExn.jsonRpcError ErrorCodes.METHOD_NOT_FOUND ("Tool not found: " ++ pyStr other))
  | other =>
    Except.error (PyExn.attributeError
      ("\x27" ++ pyTypeName other ++ "\x27 object has no attribute \x27get\x27"))

/-- `McpServer.handle_message`.  The argument is the line after `json.loads`:
`none` models a line that fails to parse (`json.JSONDecodeError`).  Returns
the response envelope (or `none` for the one notification branch) together
with the server state (whose `initialized` flag the notification sets). -/
def handle_message (server : McpServer) (message : Option Json) : Option Json × McpServer :=
  match message with
  | none => (some (create_error_response Json.null ErrorCodes.PARSE_ERROR "Parse error"), server)
  | some request =>
    match request with
    | Json.obj fields =>
      match lookupField fields "jsonrpc" with
      | none =>
        (some (create_error_response Json.null ErrorCodes.INVALID_REQUEST "Invalid JSON-RPC request"), server)
      | some ver =>
        if pyEqStr ver "2.0" = false then
          (some (create_error_response (dictGet fields "id") ErrorCodes.INVALID_REQUEST
            "Unsupported JSON-RPC version"), server)
        else
          let method := dictGet fields "method"
          if method.truthy = false then
            (some (create_error_response (dictGet fields "id") ErrorCodes.INVALID_REQUEST
              "Missing method field"), server)
          else
            let params := dictGetD fields "params" (Json.obj [])
            let request_id := dictGet fields "id"
            if pyEqStr method "initialize" then
              (some (create_success_response request_id (initialize_result server)), server)
            else if pyEqStr method "notifications/initialized" then
              (none, { server with initialized := true })
            else if pyEqStr method "tools/list" then
              (some (create_success_response request_id (tools_list_result server)), server)
            else if pyEqStr method "tools/call" then
              match handle_tools_call server params with
              | Except.ok result => (some (create_success_response request_id result), server)
              | Except.error e =>
                (some (create_error_response request_id ErrorCodes.INTERNAL_ERROR (PyExn.str e)), server)
            else
              (some (create_error_response request_id ErrorCodes.METHOD_NOT_FOUND
                ("Method not found: " ++ pyStr method)), server)
    | _ =>
      (some (create_error_response Json.null ErrorCodes.INVALID_REQUEST "Invalid JSON-RPC request"), server)

/-- An output-stream event of the transport: `print(response, flush=True)`
produces a write of the serialized envelope followed by a flush. -/
inductive OutEvent where
  | write (response : Json)
  | flush

/-- One line read from stdin: its raw text and what `json.loads` makes of the
stripped line (`none` = parse failure). -/
structure InputLine where
  raw : String
  parsed : Option Json

/-- What one run of the transport loop did: the events on the output stream,
the messages actually handed to the dispatcher, and the final server state. -/
structure TransportRun where
  outputs : List OutEvent
  dispatched : List (Option Json)
  finalServer : McpServer

/-- `StdioTransport.start`: reads lines until end of stream (the end of the
list), skips lines that are empty after stripping, dispatches the rest and
prints (with a flush) every non-null response.  The function is total, so the
loop always returns cleanly at end of stream. -/
def transport_start (server : McpServer) : List InputLine → TransportRun
  | [] => ⟨[], [], server⟩
  | line :: rest =>
    if pyStrip line.raw == "" then transport_start server rest
    else
      match handle_message server line.parsed with
      | (some r, server1) =>
        let t := transport_start server1 rest
        ⟨OutEvent.write r :: OutEvent.flush :: t.outputs, line.parsed :: t.dispatched, t.finalServer⟩
      | (none, server1) =>
        let t := transport_start server1 rest
        ⟨t.outputs, line.parsed :: t.dispatched, t.finalServer⟩

/-! ## Schema derivation (`python_type_to_json_type` and the `tool` decorator) -/

/-- A non-union Python annotation as `typing.get_origin`/`get_args` see it.
`pyEmpty` is `inspect.Parameter.empty` (no annotation); `pyCustom` any other
unmapped type.  Union arguments are already flattened by `typing`, so a union
member is never itself a union. -/
inductive PyBase where
  | pystr
  | pyint
  | pyfloat
  | pybool
  | pylist
  | pydict
  | pyNone
  | pyEmpty
  | pyCustom (nm : String)
deriving DecidableEq, Repr

/-- A declared parameter type: a plain type or a `Union[...]` (which is what
`Optional[T]` is at runtime). -/
inductive PyType where
  | base (b : PyBase)
  | pyUnion (args : List PyBase)
deriving DecidableEq, Repr

/-- The non-union cases of `python_type_to_json_type`. -/
def base_json_type : PyBase → String
  | PyBase.pystr => "string"
  | PyBase.pyint => "integer"
  | PyBase.pyfloat => "number"
  | PyBase.pybool => "boolean"
  | PyBase.pylist => "array"
  | PyBase.pydict => "object"
  | PyBase.pyNone => "null"
  | PyBase.pyEmpty => "string"
  | PyBase.pyCustom _ => "string"

/-- `python_type_to_json_type`: for a `Union`, drop the `NoneType` arguments;
a single remaining argument maps recursively, anything else gives
`"object"`. -/
def python_type_to_json_type : PyType → String
  | PyType.base b => base_json_type b
  | PyType.pyUnion args =>
    match args.filter (fun a => !(a == PyBase.pyNone)) with
    | [a] => base_json_type a
    | _ => "object"

/-- The `is_optional` test of the `tool` decorator:
`get_origin(t) is Union and type(None) in get_args(t)`. -/
def is_optional (t : PyType) : Bool :=
  match t with
  | PyType.pyUnion args => args.contains PyBase.pyNone
  | _ => false

/-- One parameter of a tool handler as `inspect.signature` reports it. -/
structure PyParam where
  name : String
  declType : PyType
  hasDefault : Bool
deriving DecidableEq, Repr

/-- The decorator's self-skip: drop the first parameter iff it is named
`self`. -/
def params_to_inspect (ps : List PyParam) : List PyParam :=
  match ps with
  | p :: rest => if p.name == "self" then rest else ps
  | [] => []

/-- The `required` list of the derived schema: parameters with no default
whose declared type is not an Optional/Union containing None, in order. -/
def schema_required (ps : List PyParam) : List String :=
  ((params_to_inspect ps).filter
    (fun p => !p.hasDefault && !is_optional p.declType)).map PyParam.name

/-- The `properties` mapping of the derived schema. -/
def schema_properties (ps : List PyParam) : List (String × Json) :=
  (params_to_inspect ps).map
    (fun p => (p.name, Json.obj [("type", Json.str (python_type_to_json_type p.declType))]))

/-- `func._tool_input_schema` as the `tool` decorator builds it. -/
def tool_input_schema (tool_name : String) (ps : List PyParam) : Json :=
  Json.obj [("$schema", Json.str "http://json-schema.org/draft-07/schema#"),
    ("type", Json.str "object"),
    ("properties", Json.obj (schema_properties ps)),
    ("required", Json.arr ((schema_required ps).map Json.str)),
    ("title", Json.str (tool_name ++ "_params"))]

/-- Field lookup on a JSON object value. -/
def jsonField (j : Json) (key : String) : Option Json :=
  match j with
  | Json.obj fs => lookupField fs key
  | _ => none

/-! ## `WazuhClientBase` (`wazuh_client.py`) -/

/-- `WazuhApiError`: message plus the optional `status_code` keyword. -/
structure WazuhApiError where
  message : String
  status_code : Option Int
deriving DecidableEq, Repr

/-- One network interaction as the client observes it: an HTTP response
(status, body text, and what `json.loads` makes of the body), or an
`aiohttp.ClientError` (connection/TLS failure, no HTTP status). -/
structure HttpBody where
  text : String
  parsed : Option Json

/-- Outcome of one HTTP call. -/
inductive NetResult where
  | resp (status : Int) (body : HttpBody)
  | connErr (msg : String)

/-- `data.get("data", {}).get("token")` on the parsed authentication body
(the deployed API returns a JSON object with a string token; other shapes
yield no token). -/
def extractToken (parsed : Option Json) : Option String :=
  match parsed with
  | some (Json.obj fs) =>
    match lookupField fs "data" with
    | some (Json.obj ds) =>
      match lookupField ds "token" with
      | some (Json.str t) => some t
      | _ => none
    | _ => none
  | _ => none

/-- The mutable client state `_make_request`/`authenticate` touch: whether
`async with` initialized the session, and the held bearer token. -/
structure ClientState where
  sessionInit : Bool
  token : Option String

/-- Python truthiness of `self.token` (`if not self.token`): absent or the
empty string. -/
def tokenTruthy : Option String → Bool
  | none => false
  | some s => !(s == "")

/-- `WazuhClientBase.authenticate`, with the POST's outcome passed in.  On
success the extracted token is stored (even when the body carries none). -/
def authenticate (st : ClientState) (net : NetResult) : Except WazuhApiError ClientState :=
  if st.sessionInit = false then
    Except.error ⟨"Client session not initialized. Use \x27async with\x27 for WazuhClientBase.", none⟩
  else
    match net with
    | NetResult.resp status body =>
      if status == 200 then
        Except.ok { st with token := extractToken body.parsed }
      else
        Except.error ⟨"Authentication failed: " ++ toString status ++ " - " ++ body.text, some status⟩
    | NetResult.connErr m =>
      Except.error ⟨"Connection error during authentication: " ++ m, some 503⟩

/-- How a `_make_request` call ends: a parsed response body, a
`WazuhApiError`, or the raw `json.JSONDecodeError` that the unguarded
`json.loads(retry_text)` on the retry path lets escape. -/
inductive MakeRequestErr where
  | apiError (e : WazuhApiError)
  | jsonDecodeError (text : String)
deriving DecidableEq, Repr

/-- A `_make_request` run: its outcome, the final client state, how many
`authenticate` calls happened, and the bearer token attached to each resource
request actually issued (in order). -/
structure ReqTrace where
  outcome : Except MakeRequestErr Json
  finalState : ClientState
  authCalls : Nat
  resourceCalls : List (Option String)

/-- The body of `_make_request` from the first resource request on (the
session check and the lazy initial authentication already done).  `auths aIdx`
is the next authentication attempt's network outcome, `reqs 0`/`reqs 1` the
outcomes of the original request and of its single retry. -/
def make_request_core (st1 : ClientState) (auths : Nat → NetResult) (aIdx : Nat)
    (nAuth : Nat) (reqs : Nat → NetResult) : ReqTrace :=
  match reqs 0 with
  | NetResult.connErr m =>
    ⟨Except.error (MakeRequestErr.apiError ⟨"Connection error: " ++ m, some 503⟩),
      st1, nAuth, [st1.token]⟩
  | NetResult.resp status body =>
    if status == 200 then
      match body.parsed with
      | some j => ⟨Except.ok j, st1, nAuth, [st1.token]⟩
      | none =>
        ⟨Except.error (MakeRequestErr.apiError ⟨"Invalid JSON response: " ++ body.text, none⟩),
          st1, nAuth, [st1.token]⟩
    else if status == 401 then
      let st2 : ClientState := { st1 with token := none }
      match authenticate st2 (auths aIdx) with
      | Except.error e =>
        ⟨Except.error (MakeRequestErr.apiError e), st2, nAuth + 1, [st1.token]⟩
      | Except.ok st3 =>
        match reqs 1 with
        | NetResult.connErr m =>
          ⟨Except.error (MakeRequestErr.apiError ⟨"Connection error: " ++ m, some 503⟩),
            st3, nAuth + 1, [st1.token, st3.token]⟩
        | NetResult.resp s2 body2 =>
          if s2 == 200 then
            match body2.parsed with
            | some j => ⟨Except.ok j, st3, nAuth + 1, [st1.token, st3.token]⟩
            | none =>
              ⟨Except.error (MakeRequestErr.jsonDecodeError body2.text),
                st3, nAuth + 1, [st1.token, st3.token]⟩
          else
            ⟨Except.error (MakeRequestErr.apiError
                ⟨"API request failed after re-auth: " ++ toString s2 ++ " - " ++ body2.text, some s2⟩),
              st3, nAuth + 1, [st1.token, st3.token]⟩
    else
      ⟨Except.error (MakeRequestErr.apiError
          ⟨"API request failed: " ++ toString status ++ " - " ++ body.text, some status⟩),
        st1, nAuth, [st1.token]⟩

/-- `WazuhClientBase._make_request`: check the session, authenticate lazily
when no (truthy) token is held, then issue the request with the single
401-driven re-authentication retry of `make_request_core`. -/
def make_request (st : ClientState) (auths : Nat → NetResult) (reqs : Nat → NetResult) : ReqTrace :=
  if st.sessionInit = false then
    ⟨Except.error (MakeRequestErr.apiError
        ⟨"Client session not initialized. Use \x27async with\x27 for WazuhClientBase.", none⟩),
      st, 0, []⟩
  else if tokenTruthy st.token = false then
    match authenticate st (auths 0) with
    | Except.error e => ⟨Except.error (MakeRequestErr.apiError e), st, 1, []⟩
    | Except.ok st1 => make_request_core st1 auths 1 1 reqs
  else
    make_request_core st auths 0 0 reqs

/-! ## `ToolUtils.format_agent_id` (`src/tools/__init__.py`) -/

/-- The zero digit of every run of Unicode decimal digits (category Nd,
Unicode 14.0 as CPython 3.11 ships it): each run covers the ten code points
`z .. z+9` with decimal values `0 .. 9`.  Python's `\d` in a str pattern
matches exactly these 660 characters, and `int()` accepts exactly them (all
of them carry a decimal value, so `int` never raises on a `\d`-matched
string). -/
def ndZeroPoints : List Nat :=
  [48, 1632, 1776, 1984, 2406, 2534, 2662, 2790, 2918, 3046, 3174, 3302,
   3430, 3558, 3664, 3792, 3872, 4160, 4240, 6112, 6160, 6470, 6608, 6784,
   6800, 6992, 7088, 7232, 7248, 42528, 43216, 43264, 43472, 43504, 43600,
   44016, 65296, 66720, 68912, 69734, 69872, 69942, 70096, 70384, 70736,
   70864, 71248, 71360, 71472, 71904, 72016, 72784, 73040, 73120, 92768,
   92864, 93008, 120782, 120792, 120802, 120812, 120822, 123200, 123632,
   125264, 130032]

/-- The decimal value of a Unicode decimal digit (`unicodedata.decimal`),
`none` for every other character. -/
def pyDigitVal (c : Char) : Option Nat :=
  (ndZeroPoints.find? (fun z => decide (z ≤ c.toNat) && decide (c.toNat ≤ z + 9))).map
    (fun z => c.toNat - z)

/-- The character class `\d` of a Python str pattern: the Unicode decimal
digits. -/
def isPyDigit (c : Char) : Bool := (pyDigitVal c).isSome

/-- `re.match(r"^\d{1,3}$", t)`: one to three decimal digits and nothing
else. -/
def is13digits (t : String) : Bool :=
  decide (1 ≤ t.data.length) && decide (t.data.length ≤ 3) && t.data.all isPyDigit

/-- `int(t)` for a string of decimal digits: left fold over the digit
values. -/
def digitsVal (cs : List Char) : Nat :=
  cs.foldl (fun acc c => 10 * acc + (pyDigitVal c).getD 0) 0

/-- `f"{num:03d}"` on the guarded range `0 ≤ num ≤ 999`: the three decimal
digits of `num`. -/
def decimal3 (n : Nat) : String :=
  String.mk [Char.ofNat (48 + n / 100 % 10), Char.ofNat (48 + n / 10 % 10),
    Char.ofNat (48 + n % 10)]

/-- `ToolUtils.format_agent_id` on a string input.  Inputs of other Python
types take the non-string branch, which no claim quantifies over. -/
def format_agent_id (agent_id : String) : String × Option String :=
  let t := pyStrip agent_id
  if is13digits t then
    let num := digitsVal t.data
    if num ≤ 999 then
      (decimal3 num, none)
    else
      ("", some ("Agent ID must be between 0 and 999, got: " ++ t))
  else
    ("", some ("Invalid agent ID format: " ++ t ++ ". Expected numeric string."))

/-! ## Concrete fixtures used by witnesses and counterexamples -/

/-- A tool whose handler returns a plain string (not a `CallToolResult`). -/
def pingTool : ToolInfo :=
  { description := "demo tool", input_schema := Json.obj [], method := some (fun _ => ToolOutcome.other "pong") }

/-- A tool whose handler raises (`str(e) = "boom"`). -/
def crashTool : ToolInfo :=
  { description := "crashing tool", input_schema := Json.obj [], method := some (fun _ => ToolOutcome.raises "boom") }

/-- A small registry with both demo tools. -/
def demoServer : McpServer :=
  { tools := [("ping", pingTool), ("crash", crashTool)], serverName := "mcp-server-wazuh-python",
    serverVersion := "0.2.4", instructions := none, initialized := false }

/-- A signature shaped like `get_vulnerabilities(self, agent_id: str,
limit: int = 300, severity: Optional[str] = None)`. -/
def demoParams : List PyParam :=
  [⟨"self", PyType.base PyBase.pyEmpty, false⟩,
   ⟨"agent_id", PyType.base PyBase.pystr, false⟩,
   ⟨"limit", PyType.base PyBase.pyint, true⟩,
   ⟨"severity", PyType.pyUnion [PyBase.pystr, PyBase.pyNone], true⟩]

/-- A client state holding a valid session and token. -/
def demoClient : ClientState := { sessionInit := true, token := some "tok0" }

/-- An authentication response body carrying token `"tok1"`. -/
def authOkBody : HttpBody :=
  ⟨"authbody", some (Json.obj [("data", Json.obj [("token", Json.str "tok1")])])⟩

/-- A successful resource response body. -/
def okBody : HttpBody := ⟨"ok", some (Json.obj [("data", Json.obj [])])⟩

/-- Auth oracle: every authentication attempt succeeds with `"tok1"`. -/
def demoAuths : Nat → NetResult := fun _ => NetResult.resp 200 authOkBody

/-- Resource oracle: 401 on the first call, 200 on the retry. -/
def demoReqs401 : Nat → NetResult := fun n =>
  if n == 0 then NetResult.resp 401 ⟨"unauthorized", none⟩ else NetResult.resp 200 okBody

/-- Resource oracle: a 404 with body text `"missing"`. -/
def demoReqs404 : Nat → NetResult := fun _ => NetResult.resp 404 ⟨"missing", none⟩

/-- Resource oracle: connection failure. -/
def demoReqsConn : Nat → NetResult := fun _ => NetResult.connErr "down"

/-! ## Theorems -/

/-- Unfolding lemma: the Python `==`-with-string-literal test on a string
value is string equality. -/
@[simp] theorem pyEqStr_str (t s : String) : pyEqStr (Json.str t) s = (t == s) := rfl

/-- C1: a tools/call dispatch whose resolved handler raises during invocation
yields a *successful* JSON-RPC envelope (a `result` member, never an `error`
object) whose result has `isError = true` and a single text content item
describing the failure. -/
theorem tools_call_raise_contained (server : McpServer) (nm : String) (info : ToolInfo)
    (m : Json → ToolOutcome) (args idv : Json) (msg : String)
    (hname : (nm == "") = false)
    (hlook : lookupField server.tools nm = some info)
    (hmeth : info.method = some m)
    (hraise : m args = ToolOutcome.raises msg) :
    handle_message server (some (Json.obj
      [("jsonrpc", Json.str "2.0"), ("id", idv), ("method", Json.str "tools/call"),
       ("params", Json.obj [("name", Json.str nm), ("arguments", args)])])) =
    (some (Json.obj [("jsonrpc", Json.str "2.0"), ("id", idv),
      ("result", Json.obj [("content", Json.arr [textContent ("Error calling tool: " ++ msg)]),
        ("isError", Json.bool true)])]), server) := by
  simp [handle_message, handle_tools_call, dictGet, dictGetD, lookupField, pyEqStr,
    Json.truthy, create_success_response, hname, hlook, hmeth, hraise]

/-- C1 witness: the raising demo tool, called with id 1 and empty arguments. -/
theorem tools_call_raise_contained_witness :
    handle_message demoServer (some (Json.obj
      [("jsonrpc", Json.str "2.0"), ("id", Json.num 1), ("method", Json.str "tools/call"),
       ("params", Json.obj [("name", Json.str "crash"), ("arguments", Json.obj [])])])) =
    (some (Json.obj [("jsonrpc", Json.str "2.0"), ("id", Json.num 1),
      ("result", Json.obj [("content", Json.arr [textContent ("Error calling tool: " ++ "boom")]),
        ("isError", Json.bool true)])]), demoServer) :=
  tools_call_raise_contained demoServer "crash" crashTool (fun _ => ToolOutcome.raises "boom")
    (Json.obj []) (Json.num 1) "boom" rfl rfl rfl rfl

/-- C9: a tools/call dispatch whose resolved handler returns a value that is
not a `CallToolResult` yields a success envelope wrapping the value's string
form as a single text content item with `isError = false`. -/
theorem tools_call_other_value_wrapped (server : McpServer) (nm : String) (info : ToolInfo)
    (m : Json → ToolOutcome) (args idv : Json) (sval : String)
    (hname : (nm == "") = false)
    (hlook : lookupField server.tools nm = some info)
    (hmeth : info.method = some m)
    (hother : m args = ToolOutcome.other sval) :
    handle_message server (some (Json.obj
      [("jsonrpc", Json.str "2.0"), ("id", idv), ("method", Json.str "tools/call"),
       ("params", Json.obj [("name", Json.str nm), ("arguments", args)])])) =
    (some (Json.obj [("jsonrpc", Json.str "2.0"), ("id", idv),
      ("result", Json.obj [("content", Json.arr [textContent sval]),
        ("isError", Json.bool false)])]), server) := by
  simp [handle_message, handle_tools_call, dictGet, dictGetD, lookupField, pyEqStr,
    Json.truthy, create_success_response, hname, hlook, hmeth, hother]

/-- C9 witness: the demo tool returning the plain string `"pong"`. -/
theorem tools_call_other_value_wrapped_witness :
    handle_message demoServer (some (Json.obj
      [("jsonrpc", Json.str "2.0"), ("id", Json.num 2), ("method", Json.str "tools/call"),
       ("params", Json.obj [("name", Json.str "ping"), ("arguments", Json.obj [])])])) =
    (some (Json.obj [("jsonrpc", Json.str "2.0"), ("id", Json.num 2),
      ("result", Json.obj [("content", Json.arr [textContent "pong"]),
        ("isError", Json.bool false)])]), demoServer) :=
  tools_call_other_value_wrapped demoServer "ping" pingTool (fun _ => ToolOutcome.other "pong")
    (Json.obj []) (Json.num 2) "pong" rfl rfl rfl rfl

/-- C3: the code diverges from the claim.  A tools/call without a `name`
raises `JsonRpcError(INVALID_PARAMS)` inside `_handle_tools_call`, but
`handle_message` has no `except JsonRpcError` clause, so the blanket
`except Exception` converts it to an envelope with code `INTERNAL_ERROR`
(-32603) whose message merely embeds the intended code; likewise, an unknown
tool name yields -32603, not `METHOD_NOT_FOUND` (-32601). -/
theorem tools_call_param_errors_become_internal :
    (handle_message demoServer (some (Json.obj
      [("jsonrpc", Json.str "2.0"), ("id", Json.num 1), ("method", Json.str "tools/call"),
       ("params", Json.obj [])]))).1 =
      some (create_error_response (Json.num 1) ErrorCodes.INTERNAL_ERROR
        "JSON-RPC Error -32602: Missing tool name") ∧
    (handle_message demoServer (some (Json.obj
      [("jsonrpc", Json.str "2.0"), ("id", Json.num 1), ("method", Json.str "tools/call"),
       ("params", Json.obj [("name", Json.str "nosuch")])]))).1 =
      some (create_error_response (Json.num 1) ErrorCodes.INTERNAL_ERROR
        "JSON-RPC Error -32601: Tool not found: nosuch") :=
  ⟨rfl, rfl⟩

/-- C4 counterexample: a well-formed request that lacks an `id` but whose
method is `tools/list` *does* get a response (with `id: null`), and the
transport writes it — refuting "handle_message returns null and nothing is
written" for every id-less request. -/
theorem idless_request_gets_response_cex :
    (handle_message demoServer (some (Json.obj
      [("jsonrpc", Json.str "2.0"), ("method", Json.str "tools/list")]))).1 =
      some (create_success_response Json.null (tools_list_result demoServer)) ∧
    (transport_start demoServer [⟨"x", some (Json.obj
      [("jsonrpc", Json.str "2.0"), ("method", Json.str "tools/list")])⟩]).outputs =
      [OutEvent.write (create_success_response Json.null (tools_list_result demoServer)),
       OutEvent.flush] :=
  ⟨rfl, rfl⟩

/-- Helper: `pyEqStr` against a literal holds exactly of that string value. -/
theorem pyEqStr_true_iff (j : Json) (s : String) : pyEqStr j s = true ↔ j = Json.str s := by
  cases j <;> simp [pyEqStr]

/-- Helper: when a dispatched line produces a response, the transport writes
it followed by a flush. -/
theorem transport_writes (server s1 : McpServer) (raw : String) (p : Option Json)
    (r : Json) (rest : List InputLine)
    (hraw : (pyStrip raw == "") = false) (hm : handle_message server p = (some r, s1)) :
    (transport_start server (⟨raw, p⟩ :: rest)).outputs =
      OutEvent.write r :: OutEvent.flush :: (transport_start s1 rest).outputs := by
  simp [transport_start, hraw, hm]

/-- C4 amended: `handle_message` returns no response exactly for the inputs
whose method is `notifications/initialized` (in a well-formed envelope) —
every other input gets a response; and a well-formed request lacking an `id`
with any other (truthy) method receives a response envelope whose `id` is
null, which the transport writes followed by a flush. -/
theorem notification_silence_amended (server : McpServer) :
    (∀ msg : Option Json, (handle_message server msg).1 = none ↔
      ∃ fields, msg = some (Json.obj fields) ∧
        lookupField fields "jsonrpc" = some (Json.str "2.0") ∧
        dictGet fields "method" = Json.str "notifications/initialized") ∧
    (∀ fields : List (String × Json),
      lookupField fields "jsonrpc" = some (Json.str "2.0") →
      (dictGet fields "method").truthy = true →
      pyEqStr (dictGet fields "method") "notifications/initialized" = false →
      lookupField fields "id" = none →
      ∃ r, (handle_message server (some (Json.obj fields))).1 = some r ∧
        jsonField r "id" = some Json.null ∧
        ∀ raw rest, (pyStrip raw == "") = false →
          (transport_start server (⟨raw, some (Json.obj fields)⟩ :: rest)).outputs =
            OutEvent.write r :: OutEvent.flush ::
              (transport_start (handle_message server (some (Json.obj fields))).2 rest).outputs) := by
  constructor
  · intro msg
    constructor
    · intro h
      cases msg with
      | none => simp [handle_message] at h
      | some j =>
        cases j with
        | null => simp [handle_message] at h
        | bool b => simp [handle_message] at h
        | num n => simp [handle_message] at h
        | str s => simp [handle_message] at h
        | arr xs => simp [handle_message] at h
        | obj fields =>
          cases hjs : lookupField fields "jsonrpc" with
          | none => simp [handle_message, hjs] at h
          | some ver =>
            cases hv : pyEqStr ver "2.0" with
            | false => simp [handle_message, hjs, hv] at h
            | true =>
              have hver : ver = Json.str "2.0" := (pyEqStr_true_iff ver "2.0").mp hv
              cases ht : (dictGet fields "method").truthy with
              | false => simp [handle_message, hjs, hv, ht] at h
              | true =>
                cases h1 : pyEqStr (dictGet fields "method") "initialize" with
                | true => simp [handle_message, hjs, hv, ht, h1] at h
                | false =>
                  cases h2 : pyEqStr (dictGet fields "method") "notifications/initialized" with
                  | true =>
                    exact ⟨fields, rfl, by rw [hjs, hver], (pyEqStr_true_iff _ _).mp h2⟩
                  | false =>
                    cases h3 : pyEqStr (dictGet fields "method") "tools/list" with
                    | true => simp [handle_message, hjs, hv, ht, h1, h2, h3] at h
                    | false =>
                      cases h4 : pyEqStr (dictGet fields "method") "tools/call" with
                      | false => simp [handle_message, hjs, hv, ht, h1, h2, h3, h4] at h
                      | true =>
                        cases htc : handle_tools_call server (dictGetD fields "params" (Json.obj [])) with
                        | ok v => simp [handle_message, hjs, hv, ht, h1, h2, h3, h4, htc] at h
                        | error e => simp [handle_message, hjs, hv, ht, h1, h2, h3, h4, htc] at h
    · rintro ⟨fields, rfl, hjs, hm⟩
      simp [handle_message, hjs, hm, Json.truthy]
  · intro fields hjs ht hnot hid
    have hidn : dictGet fields "id" = Json.null := by simp [dictGet, hid]
    have key : ∀ (r : Json) (s1 : McpServer),
        handle_message server (some (Json.obj fields)) = (some r, s1) →
        jsonField r "id" = some Json.null →
        ∃ r2, (handle_message server (some (Json.obj fields))).1 = some r2 ∧
          jsonField r2 "id" = some Json.null ∧
          ∀ raw rest, (pyStrip raw == "") = false →
            (transport_start server (⟨raw, some (Json.obj fields)⟩ :: rest)).outputs =
              OutEvent.write r2 :: OutEvent.flush ::
                (transport_start (handle_message server (some (Json.obj fields))).2 rest).outputs := by
      intro r s1 hm hidr
      refine ⟨r, by rw [hm], hidr, ?_⟩
      intro raw rest hraw
      rw [hm]
      exact transport_writes server s1 raw _ r rest hraw hm
    cases h1 : pyEqStr (dictGet fields "method") "initialize" with
    | true =>
      refine key (create_success_response Json.null (initialize_result server)) server ?_
        (by simp [create_success_response, jsonField, lookupField])
      simp [handle_message, hjs, ht, h1, hidn]
    | false =>
      cases h3 : pyEqStr (dictGet fields "method") "tools/list" with
      | true =>
        refine key (create_success_response Json.null (tools_list_result server)) server ?_
          (by simp [create_success_response, jsonField, lookupField])
        simp [handle_message, hjs, ht, h1, hnot, h3, hidn]
      | false =>
        cases h4 : pyEqStr (dictGet fields "method") "tools/call" with
        | true =>
          cases htc : handle_tools_call server (dictGetD fields "params" (Json.obj [])) with
          | ok v =>
            refine key (create_success_response Json.null v) server ?_
              (by simp [create_success_response, jsonField, lookupField])
            simp [handle_message, hjs, ht, h1, hnot, h3, h4, htc, hidn]
          | error e =>
            refine key (create_error_response Json.null ErrorCodes.INTERNAL_ERROR (PyExn.str e)) server ?_
              (by simp [create_error_response, jsonField, lookupField])
            simp [handle_message, hjs, ht, h1, hnot, h3, h4, htc, hidn]
        | false =>
          refine key (create_error_response Json.null ErrorCodes.METHOD_NOT_FOUND
              ("Method not found: " ++ pyStr (dictGet fields "method"))) server ?_
            (by simp [create_error_response, jsonField, lookupField])
          simp [handle_message, hjs, ht, h1, hnot, h3, h4, hidn]

/-- C4 amended witness: `notifications/initialized` is silent on the demo
server, and an id-less `tools/list` request gets an envelope with id null
that the transport writes followed by a flush. -/
theorem notification_silence_amended_witness :
    (handle_message demoServer (some (Json.obj
      [("jsonrpc", Json.str "2.0"), ("method", Json.str "notifications/initialized")]))).1 = none ∧
    (∃ r, (handle_message demoServer (some (Json.obj
        [("jsonrpc", Json.str "2.0"), ("method", Json.str "tools/list")]))).1 = some r ∧
      jsonField r "id" = some Json.null ∧
      ∀ raw rest, (pyStrip raw == "") = false →
        (transport_start demoServer (⟨raw, some (Json.obj
            [("jsonrpc", Json.str "2.0"), ("method", Json.str "tools/list")])⟩ :: rest)).outputs =
          OutEvent.write r :: OutEvent.flush ::
            (transport_start (handle_message demoServer (some (Json.obj
              [("jsonrpc", Json.str "2.0"), ("method", Json.str "tools/list")]))).2 rest).outputs) :=
  ⟨((notification_silence_amended demoServer).1 _).mpr
     ⟨[("jsonrpc", Json.str "2.0"), ("method", Json.str "notifications/initialized")], rfl, rfl, rfl⟩,
   (notification_silence_amended demoServer).2
     [("jsonrpc", Json.str "2.0"), ("method", Json.str "tools/list")] rfl rfl rfl rfl⟩

/-- C5 counterexample: (a) an object carrying a parseable `id` (7) but no
protocol tag gets the INVALID_REQUEST envelope with `id: null`, not the
echoed id the claim demands; (b) a request whose `method` is present but
falsy (`""`) — so not "missing", and not one of the four recognized methods —
gets INVALID_REQUEST, not the METHOD_NOT_FOUND the claim demands. -/
theorem invalid_request_id_not_echoed_cex :
    (handle_message demoServer (some (Json.obj [("id", Json.num 7)]))).1 =
      some (create_error_response Json.null ErrorCodes.INVALID_REQUEST "Invalid JSON-RPC request") ∧
    (handle_message demoServer (some (Json.obj
      [("jsonrpc", Json.str "2.0"), ("id", Json.num 8), ("method", Json.str "")]))).1 =
      some (create_error_response (Json.num 8) ErrorCodes.INVALID_REQUEST "Missing method field") :=
  ⟨rfl, rfl⟩

/-- C5 amended: parse failure gives PARSE_ERROR (-32700) with id null; a
non-object value, or an object lacking the protocol tag, gives
INVALID_REQUEST (-32600) with id null (even when the value carries a
parseable id); a mismatched tag gives INVALID_REQUEST echoing the id; a
missing or falsy `method` gives INVALID_REQUEST echoing the id; a truthy
method that is none of the four recognized ones gives METHOD_NOT_FOUND
(-32601) echoing the id. -/
theorem handle_message_validation_amended (server : McpServer) :
    (handle_message server none).1 =
      some (create_error_response Json.null ErrorCodes.PARSE_ERROR "Parse error") ∧
    (∀ j : Json, jsonIsObj j = false →
      (handle_message server (some j)).1 =
        some (create_error_response Json.null ErrorCodes.INVALID_REQUEST "Invalid JSON-RPC request")) ∧
    (∀ fields : List (String × Json), lookupField fields "jsonrpc" = none →
      (handle_message server (some (Json.obj fields))).1 =
        some (create_error_response Json.null ErrorCodes.INVALID_REQUEST "Invalid JSON-RPC request")) ∧
    (∀ fields ver, lookupField fields "jsonrpc" = some ver → pyEqStr ver "2.0" = false →
      (handle_message server (some (Json.obj fields))).1 =
        some (create_error_response (dictGet fields "id") ErrorCodes.INVALID_REQUEST
          "Unsupported JSON-RPC version")) ∧
    (∀ fields : List (String × Json), lookupField fields "jsonrpc" = some (Json.str "2.0") →
      (dictGet fields "method").truthy = false →
      (handle_message server (some (Json.obj fields))).1 =
        some (create_error_response (dictGet fields "id") ErrorCodes.INVALID_REQUEST
          "Missing method field")) ∧
    (∀ fields mv, lookupField fields "jsonrpc" = some (Json.str "2.0") →
      dictGet fields "method" = mv → mv.truthy = true →
      pyEqStr mv "initialize" = false → pyEqStr mv "notifications/initialized" = false →
      pyEqStr mv "tools/list" = false → pyEqStr mv "tools/call" = false →
      (handle_message server (some (Json.obj fields))).1 =
        some (create_error_response (dictGet fields "id") ErrorCodes.METHOD_NOT_FOUND
          ("Method not found: " ++ pyStr mv))) := by
  refine ⟨rfl, ?_, ?_, ?_, ?_, ?_⟩
  · intro j hj
    cases j <;> simp_all [jsonIsObj, handle_message]
  · intro fields hjs
    simp [handle_message, hjs]
  · intro fields ver hjs hv
    simp [handle_message, hjs, hv]
  · intro fields hjs hm
    simp [handle_message, hjs, hm]
  · intro fields mv hjs hm ht h1 h2 h3 h4
    simp [handle_message, hjs, hm, ht, h1, h2, h3, h4]

/-- C5 amended witness: a line that is not valid JSON gets the PARSE_ERROR
envelope with id null, and an unknown method `frobnicate` with id 3 gets
METHOD_NOT_FOUND echoing 3. -/
theorem handle_message_validation_amended_witness :
    (handle_message demoServer none).1 =
      some (create_error_response Json.null ErrorCodes.PARSE_ERROR "Parse error") ∧
    (handle_message demoServer (some (Json.obj
      [("jsonrpc", Json.str "2.0"), ("id", Json.num 3), ("method", Json.str "frobnicate")]))).1 =
      some (create_error_response (dictGet [("jsonrpc", Json.str "2.0"), ("id", Json.num 3),
        ("method", Json.str "frobnicate")] "id") ErrorCodes.METHOD_NOT_FOUND
        ("Method not found: " ++ pyStr (Json.str "frobnicate"))) :=
  ⟨(handle_message_validation_amended demoServer).1,
   (handle_message_validation_amended demoServer).2.2.2.2.2
     [("jsonrpc", Json.str "2.0"), ("id", Json.num 3), ("method", Json.str "frobnicate")]
     (Json.str "frobnicate") rfl rfl rfl rfl rfl rfl rfl⟩

/-- C7: the transport read loop skips a line that is empty after stripping
without dispatching it; it terminates cleanly on end of stream (the function
is total, and the empty stream yields no output events and no dispatches);
and every non-null envelope the dispatcher returns is written to the output
stream followed by a flush, while a null return writes nothing. -/
theorem transport_loop_behavior (server s1 : McpServer) (raw : String) (p : Option Json)
    (r : Json) (rest : List InputLine) :
    transport_start server [] = ⟨[], [], server⟩ ∧
    ((pyStrip raw == "") = true →
      transport_start server (⟨raw, p⟩ :: rest) = transport_start server rest) ∧
    ((pyStrip raw == "") = false → handle_message server p = (some r, s1) →
      transport_start server (⟨raw, p⟩ :: rest) =
        ⟨OutEvent.write r :: OutEvent.flush :: (transport_start s1 rest).outputs,
          p :: (transport_start s1 rest).dispatched, (transport_start s1 rest).finalServer⟩) ∧
    ((pyStrip raw == "") = false → handle_message server p = (none, s1) →
      transport_start server (⟨raw, p⟩ :: rest) =
        ⟨(transport_start s1 rest).outputs, p :: (transport_start s1 rest).dispatched,
          (transport_start s1 rest).finalServer⟩) := by
  refine ⟨rfl, ?_, ?_, ?_⟩
  · intro h
    simp [transport_start, h]
  · intro h hm
    simp [transport_start, h, hm]
  · intro h hm
    simp [transport_start, h, hm]

/-- C7 witness: the empty input stream returns cleanly with no output and no
dispatches; a whitespace-only line is skipped. -/
theorem transport_loop_behavior_witness :
    transport_start demoServer [] = ⟨[], [], demoServer⟩ ∧
    transport_start demoServer [⟨"   ", none⟩] = transport_start demoServer [] :=
  ⟨(transport_loop_behavior demoServer demoServer "" none Json.null []).1,
   (transport_loop_behavior demoServer demoServer "   " none Json.null []).2.1 rfl⟩

/-- Helper: one `make_request_core` run performs at most one further
`authenticate` call and at most two resource calls. -/
theorem make_request_core_bounds (st1 : ClientState) (auths : Nat → NetResult)
    (aIdx nAuth : Nat) (reqs : Nat → NetResult) :
    (make_request_core st1 auths aIdx nAuth reqs).authCalls ≤ nAuth + 1 ∧
    (make_request_core st1 auths aIdx nAuth reqs).resourceCalls.length ≤ 2 := by
  unfold make_request_core
  cases hr : reqs 0 with
  | connErr m => simp
  | resp status body =>
    by_cases h200 : status = 200
    · simp [h200]
      cases body.parsed <;> simp
    · simp [h200]
      by_cases h401 : status = 401
      · simp [h401]
        cases authenticate { st1 with token := none } (auths aIdx) with
        | error e => simp
        | ok st3 =>
          simp
          cases hr1 : reqs 1 with
          | connErr m => simp
          | resp s2 b2 =>
            by_cases h2 : s2 = 200
            · simp [h2]
              cases b2.parsed <;> simp
            · simp [h2]
      · simp [h401]

/-- Helper: a whole `_make_request` run performs at most two `authenticate`
calls and at most two resource calls. -/
theorem make_request_bounds (st : ClientState) (auths reqs : Nat → NetResult) :
    (make_request st auths reqs).authCalls ≤ 2 ∧
    (make_request st auths reqs).resourceCalls.length ≤ 2 := by
  unfold make_request
  cases hs : st.sessionInit with
  | false => simp [hs]
  | true =>
    simp [hs]
    cases ht : tokenTruthy st.token with
    | false =>
      simp [ht]
      cases authenticate st (auths 0) with
      | error e => simp
      | ok st1 =>
        simp
        exact make_request_core_bounds st1 auths 1 1 reqs
    | true =>
      simp [ht]
      have h := make_request_core_bounds st auths 0 0 reqs
      exact ⟨Nat.le_trans h.1 (by omega), h.2⟩

/-- Helper: after a 401 on the original request and a successful
re-authentication, the trace records exactly one further `authenticate` call
and exactly two resource calls — the original with the old token, the retry
with the new one — whatever the retry returns. -/
theorem make_request_core_401_trace (st1 st3 : ClientState) (auths : Nat → NetResult)
    (aIdx nAuth : Nat) (reqs : Nat → NetResult) (body : HttpBody)
    (hr0 : reqs 0 = NetResult.resp 401 body)
    (hauth : authenticate { st1 with token := none } (auths aIdx) = Except.ok st3) :
    (make_request_core st1 auths aIdx nAuth reqs).authCalls = nAuth + 1 ∧
    (make_request_core st1 auths aIdx nAuth reqs).resourceCalls = [st1.token, st3.token] := by
  unfold make_request_core
  rw [hr0]
  simp [hauth]
  cases hr1 : reqs 1 with
  | connErr m => simp
  | resp s2 b2 =>
    by_cases h2 : s2 = 200
    · simp [h2]
      cases b2.parsed <;> simp
    · simp [h2]

/-- C2: any `_make_request` invocation performs at most two `authenticate`
calls and at most two resource calls.  With a held token, a 401 on the
original request discards the token, authenticates exactly once more and
reissues the original request exactly once with the new token; a failing
retry is surfaced as a `WazuhApiError` with no further attempts, and a
failing re-authentication leaves the token discarded with only the original
resource call made.  Starting without a token, the 401-retry run performs
exactly two authenticate calls and exactly two resource calls. -/
theorem make_request_auth_retry (st : ClientState) (auths reqs : Nat → NetResult) :
    ((make_request st auths reqs).authCalls ≤ 2 ∧
     (make_request st auths reqs).resourceCalls.length ≤ 2) ∧
    (∀ t0 body ab t1, st.sessionInit = true → st.token = some t0 → (t0 == "") = false →
      reqs 0 = NetResult.resp 401 body →
      auths 0 = NetResult.resp 200 ab → extractToken ab.parsed = some t1 →
      (make_request st auths reqs).authCalls = 1 ∧
      (make_request st auths reqs).resourceCalls = [some t0, some t1] ∧
      (∀ s2 b2, reqs 1 = NetResult.resp s2 b2 → s2 ≠ 200 →
        (make_request st auths reqs).outcome = Except.error (MakeRequestErr.apiError
          ⟨"API request failed after re-auth: " ++ toString s2 ++ " - " ++ b2.text, some s2⟩)) ∧
      (∀ b2 j, reqs 1 = NetResult.resp 200 b2 → b2.parsed = some j →
        (make_request st auths reqs).outcome = Except.ok j)) ∧
    (∀ t0 body s ab, st.sessionInit = true → st.token = some t0 → (t0 == "") = false →
      reqs 0 = NetResult.resp 401 body →
      auths 0 = NetResult.resp s ab → s ≠ 200 →
      (make_request st auths reqs).authCalls = 1 ∧
      (make_request st auths reqs).resourceCalls = [some t0] ∧
      (make_request st auths reqs).finalState.token = none ∧
      (make_request st auths reqs).outcome = Except.error (MakeRequestErr.apiError
        ⟨"Authentication failed: " ++ toString s ++ " - " ++ ab.text, some s⟩)) ∧
    (∀ ab0 t0 body ab1 t1, st.sessionInit = true → tokenTruthy st.token = false →
      auths 0 = NetResult.resp 200 ab0 → extractToken ab0.parsed = some t0 →
      reqs 0 = NetResult.resp 401 body →
      auths 1 = NetResult.resp 200 ab1 → extractToken ab1.parsed = some t1 →
      (make_request st auths reqs).authCalls = 2 ∧
      (make_request st auths reqs).resourceCalls = [some t0, some t1]) := by
  refine ⟨make_request_bounds st auths reqs, ?_, ?_, ?_⟩
  · intro t0 body ab t1 hs htok htne hr0 ha0 hext
    have hcore : make_request st auths reqs = make_request_core st auths 0 0 reqs := by
      unfold make_request
      simp [hs, tokenTruthy, htok, htne]
    have hauth : authenticate { st with token := none } (auths 0) =
        Except.ok { st with token := some t1 } := by
      simp [authenticate, ha0, hext, hs]
    have htr := make_request_core_401_trace st { st with token := some t1 } auths 0 0 reqs body hr0 hauth
    refine ⟨by rw [hcore]; exact htr.1, by rw [hcore, htr.2, htok], ?_, ?_⟩
    · intro s2 b2 hr1 hs2
      rw [hcore]
      unfold make_request_core
      rw [hr0]
      simp [hauth, hr1, hs2]
    · intro b2 j hr1 hp
      rw [hcore]
      unfold make_request_core
      rw [hr0]
      simp [hauth, hr1, hp]
  · intro t0 body s ab hs htok htne hr0 ha0 hsne
    have hcore : make_request st auths reqs = make_request_core st auths 0 0 reqs := by
      unfold make_request
      simp [hs, tokenTruthy, htok, htne]
    rw [hcore]
    unfold make_request_core
    rw [hr0]
    simp [authenticate, hs, ha0, hsne, htok]
  · intro ab0 t0 body ab1 t1 hs htfal ha0 hext0 hr0 ha1 hext1
    have hauth0 : authenticate st (auths 0) = Except.ok { st with token := some t0 } := by
      simp [authenticate, ha0, hext0, hs]
    have hcore : make_request st auths reqs = make_request_core
        { st with token := some t0 } auths 1 1 reqs := by
      unfold make_request
      simp [hs, htfal, hauth0]
    have hauth1 : authenticate { { st with token := some t0 } with token := none } (auths 1) =
        Except.ok { st with token := some t1 } := by
      simp [authenticate, ha1, hext1, hs]
    have htr := make_request_core_401_trace { st with token := some t0 }
      { st with token := some t1 } auths 1 1 reqs body hr0 hauth1
    exact ⟨by rw [hcore]; exact htr.1, by rw [hcore]; exact htr.2⟩

/-- C2 witness: a held token, 401 then 200 — one further authenticate call,
exactly two resource calls: first with the old token, then with the new. -/
theorem make_request_auth_retry_witness :
    (make_request demoClient demoAuths demoReqs401).authCalls = 1 ∧
    (make_request demoClient demoAuths demoReqs401).resourceCalls = [some "tok0", some "tok1"] := by
  have h := (make_request_auth_retry demoClient demoAuths demoReqs401).2.1 "tok0"
    ⟨"unauthorized", none⟩ authOkBody "tok1" rfl rfl rfl rfl rfl rfl
  exact ⟨h.1, h.2.1⟩

/-- C8: a non-2xx status other than the 401 path on the original request is
surfaced as a `WazuhApiError` carrying that HTTP status and the response body
text; a connection failure (no HTTP status) is surfaced as a `WazuhApiError`
with synthetic status 503. -/
theorem make_request_error_surfacing (st : ClientState) (auths reqs : Nat → NetResult) :
    (∀ t0 s body, st.sessionInit = true → st.token = some t0 → (t0 == "") = false →
      reqs 0 = NetResult.resp s body → (s < 200 ∨ 300 ≤ s) → s ≠ 401 →
      (make_request st auths reqs).outcome = Except.error (MakeRequestErr.apiError
        ⟨"API request failed: " ++ toString s ++ " - " ++ body.text, some s⟩)) ∧
    (∀ t0 m, st.sessionInit = true → st.token = some t0 → (t0 == "") = false →
      reqs 0 = NetResult.connErr m →
      (make_request st auths reqs).outcome = Except.error (MakeRequestErr.apiError
        ⟨"Connection error: " ++ m, some 503⟩)) := by
  constructor
  · intro t0 s body hs htok htne hr0 hrange hne401
    have hcore : make_request st auths reqs = make_request_core st auths 0 0 reqs := by
      unfold make_request
      simp [hs, tokenTruthy, htok, htne]
    have hne200 : s ≠ 200 := by omega
    rw [hcore]
    unfold make_request_core
    rw [hr0]
    simp [hne200, hne401]
  · intro t0 m hs htok htne hr0
    have hcore : make_request st auths reqs = make_request_core st auths 0 0 reqs := by
      unfold make_request
      simp [hs, tokenTruthy, htok, htne]
    rw [hcore]
    unfold make_request_core
    rw [hr0]

/-- C8 witness: a 404 surfaces with status 404 and body text; a connection
failure surfaces with synthetic status 503. -/
theorem make_request_error_surfacing_witness :
    (make_request demoClient demoAuths demoReqs404).outcome = Except.error (MakeRequestErr.apiError
      ⟨"API request failed: " ++ toString (404 : Int) ++ " - " ++ "missing", some 404⟩) ∧
    (make_request demoClient demoAuths demoReqsConn).outcome = Except.error (MakeRequestErr.apiError
      ⟨"Connection error: " ++ "down", some 503⟩) :=
  ⟨(make_request_error_surfacing demoClient demoAuths demoReqs404).1 "tok0" 404 ⟨"missing", none⟩
     rfl rfl rfl rfl (Or.inr (by norm_num)) (by norm_num),
   (make_request_error_surfacing demoClient demoAuths demoReqsConn).2 "tok0" "down" rfl rfl rfl rfl⟩

/-- C6: among the inspected parameters (the implicit `self` excluded), a
parameter's name is listed in `required` iff it has no default value and its
declared type is not an Optional/Union containing None; nullable parameters
are never required regardless of default; and the schema's title is
`<tool_name>_params`. -/
theorem schema_required_characterization (tn : String) (ps : List PyParam) (p : PyParam) :
    (p ∈ params_to_inspect ps →
      ((params_to_inspect ps).map PyParam.name).Nodup →
      ((p.name ∈ schema_required ps ↔
          (p.hasDefault = false ∧ is_optional p.declType = false)) ∧
       (is_optional p.declType = true → p.name ∉ schema_required ps))) ∧
    jsonField (tool_input_schema tn ps) "title" = some (Json.str (tn ++ "_params")) := by
  constructor
  · intro hmem hnodup
    have hiff : p.name ∈ schema_required ps ↔
        (p.hasDefault = false ∧ is_optional p.declType = false) := by
      unfold schema_required
      constructor
      · intro h
        obtain ⟨q, hq, hqe⟩ := List.mem_map.mp h
        have hqf := List.mem_filter.mp hq
        have hqp : q = p := List.inj_on_of_nodup_map hnodup hqf.1 hmem hqe
        have hcond := hqf.2
        rw [hqp] at hcond
        simpa using hcond
      · rintro ⟨hd, ho⟩
        exact List.mem_map_of_mem PyParam.name
          (List.mem_filter.mpr ⟨hmem, by simp [hd, ho]⟩)
    refine ⟨hiff, fun hopt hmemr => ?_⟩
    have hcontra := (hiff.mp hmemr).2
    rw [hopt] at hcontra
    simp at hcontra
  · rfl

/-- C6 witness: in a `get_vulnerabilities(self, agent_id: str, limit: int =
300, severity: Optional[str] = None)`-shaped signature, `agent_id` (no
default, non-nullable) is required, and the title is derived from the tool
name. -/
theorem schema_required_characterization_witness :
    (("agent_id" ∈ schema_required demoParams ↔
        ((false : Bool) = false ∧ is_optional (PyType.base PyBase.pystr) = false)) ∧
     (is_optional (PyType.base PyBase.pystr) = true → "agent_id" ∉ schema_required demoParams)) ∧
    jsonField (tool_input_schema "get_vulnerabilities" demoParams) "title" =
      some (Json.str ("get_vulnerabilities" ++ "_params")) := by
  have h := schema_required_characterization "get_vulnerabilities" demoParams
    ⟨"agent_id", PyType.base PyBase.pystr, false⟩
  exact ⟨h.1 (by decide) (by decide), h.2⟩

/-- Helper: the digit value of any character is at most 9 (each Nd run
spans exactly ten code points). -/
theorem pyDigitVal_le_9 (c : Char) : (pyDigitVal c).getD 0 ≤ 9 := by
  unfold pyDigitVal
  cases hf : ndZeroPoints.find? (fun z => decide (z ≤ c.toNat) && decide (c.toNat ≤ z + 9)) with
  | none => simp
  | some z =>
    have hp := List.find?_some hf
    simp only [Bool.and_eq_true, decide_eq_true_eq] at hp
    simp
    omega

/-- Helper: a string of at most three decimal digits denotes a value of at
most 999. -/
theorem digitsVal_le_999 (cs : List Char) (h3 : cs.length ≤ 3) : digitsVal cs ≤ 999 := by
  match cs with
  | [] => simp [digitsVal]
  | [a] =>
    have ha := pyDigitVal_le_9 a
    simp [digitsVal]
    omega
  | [a, b] =>
    have ha := pyDigitVal_le_9 a
    have hb := pyDigitVal_le_9 b
    simp [digitsVal]
    omega
  | [a, b, c] =>
    have ha := pyDigitVal_le_9 a
    have hb := pyDigitVal_le_9 b
    have hc := pyDigitVal_le_9 c
    simp [digitsVal]
    omega
  | _ :: _ :: _ :: _ :: _ => simp at h3

/-- C10: exactly one alternative holds for every string input: if the
stripped input is a 1–3 digit numeric string (whose value is then necessarily
between 0 and 999), the result is that value zero-padded to exactly three
digits with no error message; otherwise the formatted id is the empty string
and the error message is present. -/
theorem format_agent_id_characterization (s : String) :
    (is13digits (pyStrip s) = true →
      format_agent_id s = (decimal3 (digitsVal (pyStrip s).data), none) ∧
      (decimal3 (digitsVal (pyStrip s).data)).length = 3) ∧
    (is13digits (pyStrip s) = false →
      (format_agent_id s).1 = "" ∧ (format_agent_id s).2.isSome = true) := by
  constructor
  · intro h
    have hparts := h
    unfold is13digits at hparts
    simp only [Bool.and_eq_true, decide_eq_true_eq] at hparts
    have hle : digitsVal (pyStrip s).data ≤ 999 :=
      digitsVal_le_999 _ hparts.1.2
    constructor
    · unfold format_agent_id
      simp [h, hle]
    · rfl
  · intro h
    unfold format_agent_id
    simp [h]

/-- C10 witness: ASCII `" 42 "` and Arabic-Indic `"٤٢"` (both of which the
program's `re.match` accepts and `int` converts to 42) format to the
three-digit zero-padded id with no error — concretely `"042"`; `"abc"`
yields the empty id and an error message. -/
theorem format_agent_id_characterization_witness :
    (format_agent_id " 42 " = (decimal3 (digitsVal (pyStrip " 42 ").data), none) ∧
     (decimal3 (digitsVal (pyStrip " 42 ").data)).length = 3) ∧
    (format_agent_id "٤٢" = (decimal3 (digitsVal (pyStrip "٤٢").data), none) ∧
     (decimal3 (digitsVal (pyStrip "٤٢").data)).length = 3) ∧
    format_agent_id "٤٢" = ("042", none) ∧
    ((format_agent_id "abc").1 = "" ∧ (format_agent_id "abc").2.isSome = true) :=
  ⟨(format_agent_id_characterization " 42 ").1 rfl,
   (format_agent_id_characterization "٤٢").1 rfl,
   by decide,
   (format_agent_id_characterization "abc").2 rfl⟩

end Mcp
